import Mathlib

/-!
Verification of the elicitation app's distribution engine against its
natural-language specification.

The numeric type of the application is modelled as `ℚ`: every value the
claims exercise is an integer-valued JavaScript number (the UI rounds all
inputs with `Math.round`, and the defaults are integers), and on that
domain rational arithmetic agrees exactly with IEEE doubles.
-/

namespace Elicitation

/-- A fully concrete distribution (`Distribution` in `src/types.ts`):
four numeric fields, none absent. -/
structure Distribution where
  min : ℚ
  max : ℚ
  mode : ℚ
  confidence : ℚ
deriving DecidableEq

/-- A sparse, user-facing distribution (`UserDistribution` in
`src/types.ts`): each field is either a number or `null` (modelled as
`Option`). -/
structure UserDistribution where
  min : Option ℚ
  max : Option ℚ
  mode : Option ℚ
  confidence : Option ℚ
deriving DecidableEq

/-- `ScenarioDistribution` in `src/types.ts`. -/
structure ScenarioDistribution where
  baseline : Distribution
  treatment : Distribution
deriving DecidableEq

/-- `UserScenarioDistribution` in `src/types.ts`. -/
structure UserScenarioDistribution where
  baseline : UserDistribution
  treatment : UserDistribution
deriving DecidableEq

/-- `DEFAULT_BASELINE` from `src/services/distributionUtils.ts`. -/
def DEFAULT_BASELINE : Distribution :=
  { min := 0, max := 30, mode := 15, confidence := 100 }

/-- `DEFAULT_TREATMENT` from `src/services/distributionUtils.ts`. -/
def DEFAULT_TREATMENT : Distribution :=
  { min := 0, max := 20, mode := 10, confidence := 100 }

/-- `userDistributionToDistribution` from
`src/services/distributionUtils.ts`: field-wise `value ?? default`
(JavaScript `??` fires exactly on `null`, i.e. `Option.getD`). -/
def userDistributionToDistribution (userDist : UserDistribution)
    (defaults : Distribution) : Distribution :=
  { min := userDist.min.getD defaults.min
    max := userDist.max.getD defaults.max
    mode := userDist.mode.getD defaults.mode
    confidence := userDist.confidence.getD defaults.confidence }

/-- `distributionToUserDistribution` from
`src/services/distributionUtils.ts`: field-wise
`value === default ? null : value`. -/
def distributionToUserDistribution (dist : Distribution)
    (defaults : Distribution) : UserDistribution :=
  { min := if dist.min = defaults.min then none else some dist.min
    max := if dist.max = defaults.max then none else some dist.max
    mode := if dist.mode = defaults.mode then none else some dist.mode
    confidence :=
      if dist.confidence = defaults.confidence then none
      else some dist.confidence }

/-- `hasUserEdits` from `src/services/distributionUtils.ts`. -/
def hasUserEdits (userDist : UserDistribution) : Bool :=
  userDist.min.isSome || userDist.max.isSome || userDist.mode.isSome ||
    userDist.confidence.isSome

/-- `hasScenarioUserEdits` from `src/services/distributionUtils.ts`. -/
def hasScenarioUserEdits (u : UserScenarioDistribution) : Bool :=
  hasUserEdits u.baseline || hasUserEdits u.treatment

/-- `userScenarioToScenario` from `src/services/distributionUtils.ts`. -/
def userScenarioToScenario (u : UserScenarioDistribution) :
    ScenarioDistribution :=
  { baseline := userDistributionToDistribution u.baseline DEFAULT_BASELINE
    treatment := userDistributionToDistribution u.treatment DEFAULT_TREATMENT }

/-- `scenarioToUserScenario` from `src/services/distributionUtils.ts`. -/
def scenarioToUserScenario (s : ScenarioDistribution) :
    UserScenarioDistribution :=
  { baseline := distributionToUserDistribution s.baseline DEFAULT_BASELINE
    treatment := distributionToUserDistribution s.treatment DEFAULT_TREATMENT }

/-- `getEmptyUserScenario` from `src/services/distributionUtils.ts`. -/
def getEmptyUserScenario : UserScenarioDistribution :=
  { baseline := { min := none, max := none, mode := none, confidence := none }
    treatment := { min := none, max := none, mode := none, confidence := none } }

/-- `BetaParams` from `src/types.ts`. -/
structure BetaParams where
  alpha : ℚ
  beta : ℚ
deriving DecidableEq

/-- One sampled point of the density curve. The abscissa is rational
(the code computes it with field operations only); the ordinate lives in
`ℝ` because the non-degenerate branch evaluates `exp`/`log`. -/
structure PdfPoint where
  x : ℚ
  y : ℝ

/-- `calculateBetaParams` from `src/services/betaUtils.ts`
(`src/unnamed/part_009`, the version the charts import): clamp the
normalized mode into `[0.01, 0.99]`, set `kappa = 4 + (confidence/100)*20`,
then `alpha = m*(kappa-2) + 1`, `beta = (1-m)*(kappa-2) + 1`. -/
def calculateBetaParams (mode confidence : ℚ) : BetaParams :=
  let m := max 0.01 (min 0.99 mode)
  let kappa := 4 + (confidence / 100) * 20
  { alpha := m * (kappa - 2) + 1, beta := (1 - m) * (kappa - 2) + 1 }

/-- `calculateBetaParams` from the earlier iteration in
`src/unnamed/part_008`: clamp into `[0.001, 0.999]` and use
`kappa = 4 + (confidence/100)*50`. -/
def calculateBetaParamsLegacy (mode confidence : ℚ) : BetaParams :=
  let m := max 0.001 (min 0.999 mode)
  let kappa := 4 + (confidence / 100) * 50
  { alpha := m * (kappa - 2) + 1, beta := (1 - m) * (kappa - 2) + 1 }

/-- The mathematical function approximated by `logGamma` in
`src/services/betaUtils.ts` (a Lanczos series plus the reflection
identity both approximate `log ∘ Γ`). -/
noncomputable def logGamma (z : ℝ) : ℝ :=
  Real.log (Real.Gamma z)

/-- `logBeta` from `src/services/betaUtils.ts`. -/
noncomputable def logBeta (alpha beta : ℝ) : ℝ :=
  logGamma alpha + logGamma beta - logGamma (alpha + beta)

/-- The list of `numPoints` x-positions with zero density returned on the
degenerate paths of `getBetaPdfPoints`
(`Array(numPoints).fill(0).map((_, i) => ...)`). With `numPoints = 1` the
code computes `0/0`, which is `NaN` in JavaScript and `0` in `ℚ`; the
ordinate is `0` either way. -/
def zeroPdfPoints (mn mx : ℚ) (numPoints : ℕ) : List PdfPoint :=
  (List.range numPoints).map fun i : ℕ =>
    { x := mn + (mx - mn) * (i : ℚ) / ((numPoints : ℚ) - 1), y := 0 }

open Classical in
/-- `getBetaPdfPoints` from `src/services/betaUtils.ts`
(`src/unnamed/part_009`). Deviations forced by the model: the reals have
no `NaN`/`Infinity`, so the `isNaN(alpha)`, `!isFinite(logB)` and
`!isFinite(y_norm)` guards (vacuous on the real-valued model) are
dropped; the `y_norm < 0` guard is kept. -/
noncomputable def getBetaPdfPoints (mn mx mode confidence : ℚ)
    (numPoints : ℕ := 101) : List PdfPoint :=
  if mn ≥ mx then zeroPdfPoints mn mx numPoints
  else
    let range := mx - mn
    let scaledMode := (mode - mn) / range
    let p := calculateBetaParams scaledMode confidence
    if p.alpha ≤ 0 ∨ p.beta ≤ 0 then zeroPdfPoints mn mx numPoints
    else
      let logB := logBeta (p.alpha : ℝ) (p.beta : ℝ)
      (List.range numPoints).map fun i : ℕ =>
        let xnorm : ℚ := (i : ℚ) / ((numPoints : ℚ) - 1)
        let xsafe : ℚ := max 0.000001 (min (1 - 0.000001) xnorm)
        let logPdf : ℝ := ((p.alpha : ℝ) - 1) * Real.log (xsafe : ℝ) +
          ((p.beta : ℝ) - 1) * Real.log ((1 : ℝ) - (xsafe : ℝ)) - logB
        let ynorm := Real.exp logPdf
        if ynorm < 0 then { x := mn + xnorm * range, y := 0 }
        else { x := mn + xnorm * range, y := ynorm / (range : ℝ) }

/-- The four editable fields of a distribution
(`field: keyof UserDistribution` in `DistributionInputs`). -/
inductive DistField
  | min
  | max
  | mode
  | confidence
deriving DecidableEq

/-- The three draggable parameters of `D3DistributionChart.handleDrag`. -/
inductive DragParam
  | min
  | mode
  | max
deriving DecidableEq

/-- The `'baseline' | 'treatment'` discriminator. -/
inductive DistType
  | baseline
  | treatment
deriving DecidableEq

/-- JavaScript `Math.round`: round half toward positive infinity, which
is Mathlib's `round` (`⌊x + 1/2⌋`). -/
def jsRound (x : ℚ) : ℚ := (round x : ℤ)

/-- `getMaxConstraint` from `src/components/DistributionInputs.tsx`:
`maxConstraints && field !== 'confidence' ? Math.min(100, maxConstraints[field]) : 100`. -/
def getMaxConstraint (maxConstraints : Option Distribution)
    (field : DistField) : ℚ :=
  match maxConstraints, field with
  | some mc, DistField.min => min 100 mc.min
  | some mc, DistField.max => min 100 mc.max
  | some mc, DistField.mode => min 100 mc.mode
  | _, _ => 100

/-- `handleValueChange` from `src/components/DistributionInputs.tsx`
(lines 31-87): realize the current values against `defaults`, update the
edited field under the `switch` rules, and null out fields equal to the
defaults on the way back (the inline `newUserDistribution` construction,
which is exactly `distributionToUserDistribution`). -/
def handleValueChange (data : UserDistribution) (defaults : Distribution)
    (maxConstraints : Option Distribution) (field : DistField) (value : ℚ) :
    UserDistribution :=
  let currentMin := data.min.getD defaults.min
  let currentMax := data.max.getD defaults.max
  let currentMode := data.mode.getD defaults.mode
  let currentConfidence := data.confidence.getD defaults.confidence
  let d : Distribution :=
    match field with
    | DistField.min =>
      let m := jsRound (max 0 (min value
        (getMaxConstraint maxConstraints DistField.min)))
      { min := m
        max := currentMax
        mode := if m > currentMode then
            min m (getMaxConstraint maxConstraints DistField.mode)
          else currentMode
        confidence := currentConfidence }
    | DistField.max =>
      let mx := jsRound (min (getMaxConstraint maxConstraints DistField.max)
        (max value 0))
      { min := currentMin
        max := mx
        mode := if mx < currentMode then mx else currentMode
        confidence := currentConfidence }
    | DistField.mode =>
      { min := currentMin
        max := currentMax
        mode := jsRound (max currentMin (min value
          (min currentMax (getMaxConstraint maxConstraints DistField.mode))))
        confidence := currentConfidence }
    | DistField.confidence =>
      { min := currentMin
        max := currentMax
        mode := currentMode
        confidence := jsRound (max 1 (min value 100)) }
  distributionToUserDistribution d defaults

/-- `handleDrag` from `src/components/D3DistributionChart.tsx`
(lines 32-97), as a pure function of the two concrete distributions the
chart displays: returns the updated distribution for the dragged side,
plus the cascaded treatment adjustment when the baseline change makes
`treatmentNeedsUpdate` true (`none` when no second
`onDistributionChange` fires). -/
def handleDrag (bd td : Distribution) (ty : DistType) (p : DragParam)
    (newValue : ℚ) : Distribution × Option Distribution :=
  let cv0 := jsRound (max 0 (min 100 newValue))
  let clampedValue :=
    match ty, p with
    | DistType.treatment, DragParam.min => min cv0 bd.min
    | DistType.treatment, DragParam.max => min cv0 bd.max
    | DistType.treatment, DragParam.mode => min cv0 bd.mode
    | DistType.baseline, _ => cv0
  let cur := match ty with
    | DistType.baseline => bd
    | DistType.treatment => td
  let upd : Distribution :=
    match p with
    | DragParam.min =>
      { min := clampedValue
        max := max clampedValue cur.max
        mode := max clampedValue cur.mode
        confidence := cur.confidence }
    | DragParam.max =>
      { min := min clampedValue cur.min
        max := clampedValue
        mode := min clampedValue cur.mode
        confidence := cur.confidence }
    | DragParam.mode =>
      { cur with mode := max cur.min (min clampedValue cur.max) }
  let adj : Option Distribution :=
    match ty with
    | DistType.treatment => none
    | DistType.baseline =>
      if td.min > upd.min ∨ td.max > upd.max ∨ td.mode > upd.mode then
        some { min := min td.min upd.min
               max := min td.max upd.max
               mode := min td.mode upd.mode
               confidence := td.confidence }
      else none
  (upd, adj)

/-- How `App.handleDistributionChange` (`src/unnamed/part_005`) stores
the concrete `Distribution` the D3 chart hands it: the object is written
into the sparse slot verbatim, so every field ends up set. -/
def storeConcrete (d : Distribution) : UserDistribution :=
  { min := some d.min
    max := some d.max
    mode := some d.mode
    confidence := some d.confidence }

/-- A chart-drag edit of the per-scenario session state: the chart sees
the realized pair (`userScenarioToScenario`, as `App` computes
`currentDistribution`), runs `handleDrag`, and each resulting
`onDistributionChange` call stores its concrete payload. -/
def dragEdit (s : UserScenarioDistribution) (ty : DistType) (p : DragParam)
    (v : ℚ) : UserScenarioDistribution :=
  let r := userScenarioToScenario s
  let hd := handleDrag r.baseline r.treatment ty p v
  match ty with
  | DistType.treatment => { s with treatment := storeConcrete hd.1 }
  | DistType.baseline =>
    { baseline := storeConcrete hd.1
      treatment := match hd.2 with
        | some t => storeConcrete t
        | none => s.treatment }

/-- An input-panel edit of the per-scenario session state, wired as in
`DistributionInputs` (`src/components/DistributionInputs.tsx` lines
174-190): the baseline row gets no `maxConstraints`, the treatment row
gets `DEFAULT_BASELINE` ("Use default baseline for constraints"), and the
`onChange` result replaces that side only. -/
def inputsEdit (s : UserScenarioDistribution) (ty : DistType)
    (field : DistField) (v : ℚ) : UserScenarioDistribution :=
  match ty with
  | DistType.baseline =>
    { s with baseline := handleValueChange s.baseline DEFAULT_BASELINE none field v }
  | DistType.treatment =>
    let t := handleValueChange s.treatment DEFAULT_TREATMENT
      (some DEFAULT_BASELINE) field v
    { s with treatment := t }

/-- One per-field edit operation, through either UI path. -/
inductive EditOp
  | drag (ty : DistType) (p : DragParam) (v : ℚ)
  | inputs (ty : DistType) (field : DistField) (v : ℚ)

/-- Apply one edit operation to the session state. -/
def applyEditOp (s : UserScenarioDistribution) : EditOp → UserScenarioDistribution
  | EditOp.drag ty p v => dragEdit s ty p v
  | EditOp.inputs ty field v => inputsEdit s ty field v

/-- Run a sequence of edits starting from the all-unset state. -/
def runEdits (ops : List EditOp) : UserScenarioDistribution :=
  ops.foldl applyEditOp getEmptyUserScenario

/-- Intra-distribution ordering: `min ≤ mode ≤ max`. -/
def distOrdered (d : Distribution) : Prop :=
  d.min ≤ d.mode ∧ d.mode ≤ d.max

/-- Cross-distribution dominance: every treatment field is at most the
corresponding baseline field. -/
def dominates (b t : Distribution) : Prop :=
  t.min ≤ b.min ∧ t.mode ≤ b.mode ∧ t.max ≤ b.max

/-- Confidence within `[1, 100]`. -/
def confInRange (d : Distribution) : Prop :=
  1 ≤ d.confidence ∧ d.confidence ≤ 100

/-- The invariant of C3 on a realized scenario distribution. -/
def scenarioInvariant (sd : ScenarioDistribution) : Prop :=
  distOrdered sd.baseline ∧ distOrdered sd.treatment ∧
    dominates sd.baseline sd.treatment ∧
    confInRange sd.baseline ∧ confInRange sd.treatment

instance (sd : ScenarioDistribution) : Decidable (scenarioInvariant sd) := by
  unfold scenarioInvariant distOrdered dominates confInRange
  infer_instance

/-- The realized-state effect of one chart-drag edit: the dragged side is
replaced by `handleDrag`'s first payload, and on a baseline drag the
treatment side is replaced by the cascade payload when one fires. -/
def chartNext (sd : ScenarioDistribution) (ty : DistType) (p : DragParam)
    (v : ℚ) : ScenarioDistribution :=
  let hd := handleDrag sd.baseline sd.treatment ty p v
  match ty with
  | DistType.treatment => { sd with treatment := hd.1 }
  | DistType.baseline => { baseline := hd.1, treatment := hd.2.getD sd.treatment }

/-- Select a field of a concrete distribution by drag parameter. -/
def dragParamField (d : Distribution) : DragParam → ℚ
  | DragParam.min => d.min
  | DragParam.mode => d.mode
  | DragParam.max => d.max

/-! ### Session codec (`src/services/csvUtils.ts`, `src/unnamed/part_010`)

JavaScript string primitives (`split`, `trim`, `toLowerCase`,
`replace`, template literals) are modelled by structurally recursive
functions over `List Char`; they agree with the originals on all inputs
relevant here (`split` on the single-character separators `','` and
`'\n'`, `trim` on ASCII whitespace). Cell values are numbers or strings;
JavaScript numeric parsing (`Number`, `parseFloat`) is modelled for the
integer literals the UI-rounded data model produces (a non-numeric
distribution cell, which `parseFloat` would turn into `NaN`, is modelled
as unset). -/

/-- Trim ASCII whitespace from both ends (JS `String.prototype.trim`). -/
def trimChars (l : List Char) : List Char :=
  ((l.dropWhile Char.isWhitespace).reverse.dropWhile Char.isWhitespace).reverse

/-- JS `s.trim()`. -/
def jsTrim (s : String) : String := String.mk (trimChars s.data)

/-- JS `s.split(sep)` for a one-character separator: keeps empty
segments, `''.split(sep) = ['']`. -/
def splitCharsOn (c : Char) : List Char → List (List Char)
  | [] => [[]]
  | a :: rest =>
    if a = c then [] :: splitCharsOn c rest
    else
      match splitCharsOn c rest with
      | [] => [[a]]
      | x :: xs => (a :: x) :: xs

/-- JS `s.split(sep)` on strings. -/
def jsSplit (s : String) (sep : Char) : List String :=
  (splitCharsOn sep s.data).map String.mk

/-- Parse a nonempty all-digit character list. -/
def digitsToNat? (l : List Char) : Option ℕ :=
  if l.isEmpty then none
  else
    l.foldl (fun acc c =>
      acc.bind fun n =>
        if c.isDigit then some (10 * n + (c.toNat - foldChar0)) else none)
      (some 0)
where foldChar0 : ℕ := 48

/-- Parse an optional-sign integer literal. -/
def parseIntChars? : List Char → Option ℤ
  | '-' :: rest => (digitsToNat? rest).map fun n => -(n : ℤ)
  | l => (digitsToNat? l).map fun n => (n : ℤ)

/-- Model of JS numeric parsing (`Number(...)` / `parseFloat`)
restricted to integer literals, the only numeric cells the UI-rounded
data model writes. -/
def parseNumber? (s : String) : Option ℚ :=
  (parseIntChars? s.data).map fun n => (n : ℚ)

/-- JS `String(x)` for a number: exact for the integer-valued rationals
this model produces (the non-integer branch has no faithful decimal
counterpart in `ℚ` and is never exercised). -/
def renderRat (q : ℚ) : String :=
  if q.den = 1 then toString q.num else toString q

/-- Serialize a sparse field: `value ?? ''`. -/
def renderOptRat : Option ℚ → String
  | none => ""
  | some q => renderRat q

/-- A scenario attribute cell: a number or free text. -/
inductive CellValue
  | num (q : ℚ)
  | str (s : String)
deriving DecidableEq

/-- JS string conversion of a cell value when a row is joined. -/
def renderCell : CellValue → String
  | CellValue.num q => renderRat q
  | CellValue.str s => s

/-- `Scenario` from `src/types.ts`: `id`, `scenario_group`, an optional
`comment`, and the remaining (non-reserved) object keys in insertion
order as `attributes`. -/
structure Scenario where
  id : String
  scenario_group : String
  comment : Option String
  attributes : List (String × CellValue)
deriving DecidableEq

/-- `UserElicitationData` from `src/types.ts`: the id-indexed object,
as an association list with unique keys in insertion order. -/
abbrev UserElicitationData := List (String × UserScenarioDistribution)

/-- JS `obj[key] = v`: replace in place or append. -/
def assocSet (l : UserElicitationData) (id : String)
    (v : UserScenarioDistribution) : UserElicitationData :=
  match l with
  | [] => [(id, v)]
  | (k, w) :: rest =>
    if k = id then (k, v) :: rest else (k, w) :: assocSet rest id v

/-- `COMMENT_HEADER` from `src/unnamed/part_010`. -/
def COMMENT_HEADER : String := "comment"

/-- `DIST_HEADERS` from `src/unnamed/part_010`. -/
def DIST_HEADERS : List String :=
  ["baseline_min", "baseline_max", "baseline_mode", "baseline_confidence",
   "treatment_min", "treatment_max", "treatment_mode", "treatment_confidence"]

/-- `RESERVED_HEADERS` from `src/unnamed/part_010`. -/
def RESERVED_HEADERS : List String :=
  ["scenario_id", "scenario_group", COMMENT_HEADER] ++ DIST_HEADERS

/-- Code-unit comparison of strings (JS default array sort order;
identical to scalar order on the ASCII headers involved). -/
def charListLe : List Char → List Char → Bool
  | [], _ => true
  | _ :: _, [] => false
  | a :: as, b :: bs =>
    if a.val < b.val then true
    else if b.val < a.val then false
    else charListLe as bs

/-- String order for JS `Array.prototype.sort()`. -/
def strLe (a b : String) : Bool := charListLe a.data b.data

/-- Insertion into a sorted list. -/
def insertSorted (x : String) : List String → List String
  | [] => [x]
  | y :: ys => if strLe x y then x :: y :: ys else y :: insertSorted x ys

/-- Sort strings ascending (JS `keys.sort()`). -/
def sortStrings : List String → List String
  | [] => []
  | x :: xs => insertSorted x (sortStrings xs)

/-- JS `Set` insertion order: first occurrence wins. -/
def dedupFirst (l : List String) : List String :=
  l.foldl (fun acc k => if acc.contains k then acc else acc ++ [k]) []

/-- Remove every comma and replace every line break (`\r\n` or `\n`)
with the two-character escape `\n`, as `generateCSV` sanitizes
comments. -/
def escapeCommentChars : List Char → List Char
  | [] => []
  | '\r' :: '\n' :: rest => '\\' :: 'n' :: escapeCommentChars rest
  | '\n' :: rest => '\\' :: 'n' :: escapeCommentChars rest
  | c :: rest => c :: escapeCommentChars rest

/-- `generateCSV`'s comment sanitizer: strip commas, then escape line
breaks. -/
def escapeComment (s : String) : String :=
  String.mk (escapeCommentChars (s.data.filter fun c => !(c == ',')))

/-- `parseCSV`'s reversal: replace each two-character `\n` escape with a
line break. -/
def unescapeCommentChars : List Char → List Char
  | [] => []
  | '\\' :: 'n' :: rest => '\n' :: unescapeCommentChars rest
  | c :: rest => c :: unescapeCommentChars rest

/-- JS `.replace(/\\n/g, '\n')`. -/
def unescapeComment (s : String) : String :=
  String.mk (unescapeCommentChars s.data)

/-- The attribute columns of the export: the union of every scenario's
non-reserved keys, lexicographically sorted. -/
def scenarioHeaders (scenarios : List Scenario) : List String :=
  sortStrings (dedupFirst ((scenarios.map fun sc => sc.attributes.map Prod.fst).flatten))

/-- `generateCSV` from `src/unnamed/part_010` (lines 13-54): error on an
empty scenario list, else one header row plus one comma-joined row per
scenario, rows joined with `\n`. -/
def generateCSV (scenarios : List Scenario) (userData : UserElicitationData) :
    Except String String :=
  if scenarios.isEmpty then
    Except.error "Cannot generate CSV: no scenarios provided"
  else
    let shs := scenarioHeaders scenarios
    let headers := ["scenario_id", "scenario_group", COMMENT_HEADER] ++ shs ++
      DIST_HEADERS
    let rows := scenarios.map fun sc =>
      let scenarioData := shs.map fun h =>
        match sc.attributes.lookup h with
        | some v => renderCell v
        | none => ""
      let distData := match userData.lookup sc.id with
        | some ud =>
          [renderOptRat ud.baseline.min, renderOptRat ud.baseline.max,
           renderOptRat ud.baseline.mode, renderOptRat ud.baseline.confidence,
           renderOptRat ud.treatment.min, renderOptRat ud.treatment.max,
           renderOptRat ud.treatment.mode, renderOptRat ud.treatment.confidence]
        | none => ["", "", "", "", "", "", "", ""]
      let sanitizedComment := escapeComment (sc.comment.getD "")
      String.intercalate ","
        ([sc.id, sc.scenario_group, sanitizedComment] ++ scenarioData ++ distData)
    Except.ok (String.intercalate "\n" (String.intercalate "," headers :: rows))

/-- Case-insensitive substring test, modelling `/yield/i.test(header)`. -/
def isSubChars (pat : List Char) : List Char → Bool
  | [] => pat.isEmpty
  | c :: rest => pat.isPrefixOf (c :: rest) || isSubChars pat rest

/-- `findYieldColumn` from `src/unnamed/part_010`: first header
containing `yield` case-insensitively. -/
def findYieldColumn (headers : List String) : Option String :=
  headers.find? fun h => isSubChars "yield".data (h.data.map Char.toLower)

/-- `ParsedCSVData` from `src/unnamed/part_010`. -/
structure ParsedCSVData where
  scenarios : List Scenario
  userElicitationData : UserElicitationData
  yieldColumn : Option String
deriving DecidableEq

/-- The accumulator of `parseCSV`'s row loop: the `canonicalRows` map,
the `scenarios` array and the `userData` object. -/
structure ParseState where
  canonicalRows : List (String × List (String × String))
  scenarios : List Scenario
  userData : UserElicitationData
deriving DecidableEq

/-- The trimmed cell values of one data row. -/
def lineValues (rawLine : String) : List String :=
  (jsSplit (jsTrim rawLine) ',').map jsTrim

/-- The row object `headers.reduce((obj, header, index) => ...)`: cell
of column `h`, missing cells defaulting to `''`; a duplicated header
keeps its last index's value, as repeated object assignment would. -/
def rowGet (headers values : List String) (h : String) : String :=
  ((((headers.zip (values ++ List.replicate (headers.length - values.length) ""))).reverse.find?
    fun p => p.1 == h).map Prod.snd).getD ""

/-- `comparableHeaders`: every header except `scenario_group`. -/
def comparableHeadersOf (headers : List String) : List String :=
  headers.filter fun h => !(h == "scenario_group")

/-- `comparableRow`: the duplicate-detection projection of a row. -/
def comparableRowOf (headers values : List String) : List (String × String) :=
  (comparableHeadersOf headers).map fun h => (h, rowGet headers values h)

/-- `mismatchedColumns`: comparable headers on which a previously seen
row for the same id and the current row disagree. -/
def mismatchedColumnsOf (headers : List String)
    (prev : List (String × String)) (values : List String) : List String :=
  (comparableHeadersOf headers).filter fun h =>
    !((prev.lookup h).getD "" == (((comparableRowOf headers values).lookup h).getD ""))

/-- The conflict error text for a duplicated id. -/
def dupConflictMsg (sid : String) (mismatched : List String) : String :=
  "Duplicate scenario_id \"" ++ sid ++
    "\" must match on all columns except scenario_group. Conflicts found in: " ++
    String.intercalate ", " mismatched

/-- `scenarioDataHeaders`: the non-reserved columns. -/
def scenarioDataHeadersOf (headers : List String) : List String :=
  headers.filter fun h => !(RESERVED_HEADERS.contains h)

/-- The attributes a data row contributes: non-reserved, non-blank
cells, numeric when the cell parses as a number, else text. -/
def rowAttributes (headers values : List String) : List (String × CellValue) :=
  (scenarioDataHeadersOf headers).filterMap fun h =>
    let value := rowGet headers values h
    if value = "" then none
    else some (h, match parseNumber? value with
      | some q => CellValue.num q
      | none => CellValue.str value)

/-- The `newScenario` object built from one data row. -/
def rowScenario (headers values : List String) (sid : String) : Scenario :=
  { id := sid
    scenario_group :=
      if rowGet headers values "scenario_group" = "" then "Unknown"
      else rowGet headers values "scenario_group"
    comment := some (unescapeComment (rowGet headers values COMMENT_HEADER))
    attributes := rowAttributes headers values }

/-- `parseValue`: blank decodes to unset, anything else parses as a
number. -/
def parseCell (v : String) : Option ℚ :=
  if v = "" then none else parseNumber? v

/-- The sparse distribution pair decoded from one data row. -/
def rowUserDistribution (headers values : List String) :
    UserScenarioDistribution :=
  { baseline :=
      { min := parseCell (rowGet headers values "baseline_min")
        max := parseCell (rowGet headers values "baseline_max")
        mode := parseCell (rowGet headers values "baseline_mode")
        confidence := parseCell (rowGet headers values "baseline_confidence") }
    treatment :=
      { min := parseCell (rowGet headers values "treatment_min")
        max := parseCell (rowGet headers values "treatment_max")
        mode := parseCell (rowGet headers values "treatment_mode")
        confidence := parseCell (rowGet headers values "treatment_confidence") } }

/-- One iteration of `parseCSV`'s row loop (`src/unnamed/part_010`
lines 95-169) on the line with 0-based index `idx`: skip blank lines,
reject a missing `scenario_id`, check a duplicated id against the
canonical row, then append the scenario and write the distributions
entry. -/
def parseLine (headers : List String) (idx : ℕ) (rawLine : String)
    (st : ParseState) : Except String ParseState :=
  if jsTrim rawLine = "" then Except.ok st
  else
    let values := lineValues rawLine
    let scenarioId := rowGet headers values "scenario_id"
    if scenarioId = "" then
      Except.error ("Row " ++ toString (idx + 1) ++
        " is missing a scenario_id value.")
    else
      let proceed : ParseState → Except String ParseState := fun st1 =>
        Except.ok
          { st1 with
            scenarios := st1.scenarios ++ [rowScenario headers values scenarioId]
            userData := assocSet st1.userData scenarioId
              (rowUserDistribution headers values) }
      match st.canonicalRows.lookup scenarioId with
      | some existingComparable =>
        let mismatchedColumns :=
          mismatchedColumnsOf headers existingComparable values
        if mismatchedColumns.isEmpty then proceed st
        else Except.error (dupConflictMsg scenarioId mismatchedColumns)
      | none =>
        proceed
          { st with
            canonicalRows := st.canonicalRows ++
              [(scenarioId, comparableRowOf headers values)] }

/-- The row loop of `parseCSV`, threading the state through the lines
in order. -/
def parseLines (headers : List String) :
    ℕ → List String → ParseState → Except String ParseState
  | _, [], st => Except.ok st
  | i, l :: ls, st =>
    match parseLine headers i l st with
    | Except.error e => Except.error e
    | Except.ok st1 => parseLines headers (i + 1) ls st1

/-- `parseCSV` from `src/unnamed/part_010` (lines 62-172). The
`existingScenarios` argument is accepted and ignored, as in the source
("Start fresh, don't use existing scenarios"). -/
def parseCSV (csvText : String) (existingScenarios : List Scenario) :
    Except String ParsedCSVData :=
  let lines := jsSplit (jsTrim csvText) '\n'
  if lines.length < 2 then
    Except.error "CSV file must contain at least a header row and one data row"
  else
    let headers := (jsSplit (lines.headD "") ',').map jsTrim
    if !(headers.contains "scenario_id") then
      Except.error "CSV file must contain a \"scenario_id\" column"
    else if !(headers.contains "scenario_group") then
      Except.error "CSV file must contain a \"scenario_group\" column"
    else
      let missingDistHeaders := DIST_HEADERS.filter fun h => !(headers.contains h)
      if !missingDistHeaders.isEmpty then
        Except.error ("CSV file must contain distribution columns: " ++
          String.intercalate ", " missingDistHeaders)
      else
        let _ := existingScenarios
        match parseLines headers 1 (lines.drop 1) ⟨[], [], []⟩ with
        | Except.error e => Except.error e
        | Except.ok st =>
          Except.ok ⟨st.scenarios, st.userData, findYieldColumn headers⟩

end Elicitation

deriving instance DecidableEq for Except

set_option maxRecDepth 100000

namespace Elicitation

lemma userDistributionToDistribution_storeConcrete (d defs : Distribution) :
    userDistributionToDistribution (storeConcrete d) defs = d := rfl

lemma userScenarioToScenario_dragEdit (s : UserScenarioDistribution)
    (ty : DistType) (p : DragParam) (v : ℚ) :
    userScenarioToScenario (dragEdit s ty p v) =
      chartNext (userScenarioToScenario s) ty p v := by
  cases ty
  case baseline =>
    dsimp only [dragEdit, chartNext]
    cases hadj : (handleDrag (userScenarioToScenario s).baseline
        (userScenarioToScenario s).treatment DistType.baseline p v).2 <;>
      simp [userScenarioToScenario, userDistributionToDistribution_storeConcrete,
        hadj]
  case treatment =>
    dsimp only [dragEdit, chartNext]
    simp [userScenarioToScenario, userDistributionToDistribution_storeConcrete]

set_option maxHeartbeats 1000000 in
lemma chartNext_invariant (sd : ScenarioDistribution) (ty : DistType)
    (p : DragParam) (v : ℚ) (h : scenarioInvariant sd) :
    scenarioInvariant (chartNext sd ty p v) := by
  obtain ⟨⟨hb1, hb2⟩, ⟨ht1, ht2⟩, ⟨hd1, hd2, hd3⟩, ⟨hcb1, hcb2⟩, ⟨hct1, hct2⟩⟩ := h
  have hbm : sd.baseline.min ≤ sd.baseline.max := hb1.trans hb2
  have htm : sd.treatment.min ≤ sd.treatment.max := ht1.trans ht2
  cases ty <;> cases p <;>
    (dsimp only [chartNext, handleDrag]
     generalize jsRound (max 0 (min 100 v)) = c
     dsimp only [scenarioInvariant, distOrdered, dominates, confInRange]
     (try split_ifs with hc) <;>
       (try push_neg at hc) <;>
       (try obtain ⟨hc1, hc2, hc3⟩ := hc) <;>
       refine ⟨⟨?_, ?_⟩, ⟨?_, ?_⟩, ⟨?_, ?_, ?_⟩, ⟨?_, ?_⟩, ⟨?_, ?_⟩⟩ <;>
       (try simp only [inf_eq_min, sup_eq_max, min_def, max_def, Option.getD] at *) <;>
       (try split_ifs at * <;> try linarith) <;> (try linarith))

lemma dragEdit_invariant (s : UserScenarioDistribution) (ty : DistType)
    (p : DragParam) (v : ℚ)
    (h : scenarioInvariant (userScenarioToScenario s)) :
    scenarioInvariant (userScenarioToScenario (dragEdit s ty p v)) := by
  rw [userScenarioToScenario_dragEdit]
  exact chartNext_invariant _ _ _ _ h

lemma foldl_dragEdits_invariant :
    ∀ (ops : List EditOp) (s : UserScenarioDistribution),
      (∀ op ∈ ops, ∃ ty p v, op = EditOp.drag ty p v) →
      scenarioInvariant (userScenarioToScenario s) →
      scenarioInvariant (userScenarioToScenario (ops.foldl applyEditOp s))
  | [], _, _, hs => hs
  | op :: rest, s, hall, hs => by
    obtain ⟨ty, p, v, rfl⟩ := hall op (List.mem_cons_self op rest)
    simp only [List.foldl_cons]
    exact foldl_dragEdits_invariant rest _
      (fun o ho => hall o (List.mem_cons_of_mem _ ho))
      (dragEdit_invariant s ty p v hs)

lemma scenarioInvariant_empty :
    scenarioInvariant (userScenarioToScenario getEmptyUserScenario) := by
  norm_num [getEmptyUserScenario, userScenarioToScenario,
    userDistributionToDistribution, DEFAULT_BASELINE, DEFAULT_TREATMENT,
    scenarioInvariant, distOrdered, dominates, confInRange]

/-- C3 counterexample: the single input-panel edit that sets
`baseline.max` to `10` (lowering the realized baseline mode to `10` as
well) leaves the untouched treatment at its realized default
`max = 20 > 10`, so the cross-distribution invariant fails after one
edit operation. -/
theorem scenarioInvariant_counterexample :
    ¬ scenarioInvariant (userScenarioToScenario
      (runEdits [EditOp.inputs DistType.baseline DistField.max 10])) := by
  norm_num [runEdits, applyEditOp, inputsEdit, getEmptyUserScenario,
    handleValueChange, jsRound, getMaxConstraint, DEFAULT_BASELINE,
    DEFAULT_TREATMENT, distributionToUserDistribution,
    userScenarioToScenario, userDistributionToDistribution,
    scenarioInvariant, distOrdered, dominates, confInRange]

/-- C3 (amended): after any finite sequence of chart-drag edit
operations starting from the all-unset state, the realized values
satisfy `min ≤ mode ≤ max` within each of baseline and treatment,
`treatment.f ≤ baseline.f` for every `f` in `{min, mode, max}`, and both
confidence values lie within `[1, 100]`. (Input-panel edits do not
preserve the cross-distribution part, see the counterexample.) -/
theorem scenarioInvariant_after_dragEdits (ops : List EditOp)
    (h : ∀ op ∈ ops, ∃ ty p v, op = EditOp.drag ty p v) :
    scenarioInvariant (userScenarioToScenario (runEdits ops)) :=
  foldl_dragEdits_invariant ops getEmptyUserScenario h scenarioInvariant_empty

/-- C1: realizing the reduction of a concrete distribution `d` against any
defaults `defs` gives back `d` exactly:
`userDistributionToDistribution (distributionToUserDistribution d defs) defs = d`.
This holds for every rational-valued `d`, in particular for every `d`
reachable via the UI's integer-rounded inputs. -/
theorem userDistributionToDistribution_distributionToUserDistribution
    (d defs : Distribution) :
    userDistributionToDistribution (distributionToUserDistribution d defs)
      defs = d := by
  cases d
  cases defs
  simp only [userDistributionToDistribution, distributionToUserDistribution]
  split_ifs <;> simp_all

/-- C7: on every degenerate input (`min ≥ max`) and for every point count
`N`, the sampler returns exactly `N` points whose density is `0`
everywhere, and (being a total function) it never throws. -/
theorem getBetaPdfPoints_degenerate (mn mx mode confidence : ℚ)
    (numPoints : ℕ) (h : mn ≥ mx) :
    (getBetaPdfPoints mn mx mode confidence numPoints).length = numPoints ∧
      ∀ p ∈ getBetaPdfPoints mn mx mode confidence numPoints, p.y = 0 := by
  rw [getBetaPdfPoints, if_pos h]
  constructor
  · rw [zeroPdfPoints, List.length_map, List.length_range]
  · intro p hp
    simp only [zeroPdfPoints, List.mem_map, List.mem_range] at hp
    obtain ⟨i, -, rfl⟩ := hp
    rfl

/-- Witness for C7 at the concrete degenerate input
`min = max = 3`, `N = 5`. -/
theorem getBetaPdfPoints_degenerate_witness :
    (3 : ℚ) ≥ 3 ∧
      ((getBetaPdfPoints 3 3 1 50 5).length = 5 ∧
        ∀ p ∈ getBetaPdfPoints 3 3 1 50 5, p.y = 0) :=
  ⟨le_refl 3, getBetaPdfPoints_degenerate 3 3 1 50 5 (le_refl 3)⟩

/-- C8: for every mode input and every confidence in `[1, 100]`, both
shape-parameter mappers (the current one in `src/unnamed/part_009` and
the earlier iteration in `src/unnamed/part_008`) return
`alpha > 1` and `beta > 1`; both are total functions with no error
path. -/
theorem calculateBetaParams_gt_one (mode confidence : ℚ)
    (h1 : 1 ≤ confidence) (h2 : confidence ≤ 100) :
    (1 < (calculateBetaParams mode confidence).alpha ∧
      1 < (calculateBetaParams mode confidence).beta) ∧
      (1 < (calculateBetaParamsLegacy mode confidence).alpha ∧
        1 < (calculateBetaParamsLegacy mode confidence).beta) := by
  have hk : (0 : ℚ) < 4 + (confidence / 100) * 20 - 2 := by linarith
  have hk5 : (0 : ℚ) < 4 + (confidence / 100) * 50 - 2 := by linarith
  have hm1 : (0.01 : ℚ) ≤ max 0.01 (min 0.99 mode) := le_max_left _ _
  have hm2 : max (0.01 : ℚ) (min 0.99 mode) ≤ 0.99 :=
    max_le (by norm_num) (min_le_left _ _)
  have hl1 : (0.001 : ℚ) ≤ max 0.001 (min 0.999 mode) := le_max_left _ _
  have hl2 : max (0.001 : ℚ) (min 0.999 mode) ≤ 0.999 :=
    max_le (by norm_num) (min_le_left _ _)
  refine ⟨⟨?_, ?_⟩, ?_, ?_⟩ <;>
    simp only [calculateBetaParams, calculateBetaParamsLegacy] <;> nlinarith

/-- Witness for C8 at `mode = 1/2`, `confidence = 50`. -/
theorem calculateBetaParams_gt_one_witness :
    (1 : ℚ) ≤ 50 ∧ (50 : ℚ) ≤ 100 ∧
      ((1 < (calculateBetaParams (1/2) 50).alpha ∧
        1 < (calculateBetaParams (1/2) 50).beta) ∧
        (1 < (calculateBetaParamsLegacy (1/2) 50).alpha ∧
          1 < (calculateBetaParamsLegacy (1/2) 50).beta)) :=
  ⟨by norm_num, by norm_num,
    calculateBetaParams_gt_one (1/2) 50 (by norm_num) (by norm_num)⟩

/-- Witness for the amended C3 on the concrete drag sequence that drags
`baseline.min` to `40` and then `treatment.max` to `5`. -/
theorem scenarioInvariant_after_dragEdits_witness :
    (∀ op ∈ [EditOp.drag DistType.baseline DragParam.min 40,
        EditOp.drag DistType.treatment DragParam.max 5],
      ∃ ty p v, op = EditOp.drag ty p v) ∧
      scenarioInvariant (userScenarioToScenario
        (runEdits [EditOp.drag DistType.baseline DragParam.min 40,
          EditOp.drag DistType.treatment DragParam.max 5])) := by
  have hall : ∀ op ∈ [EditOp.drag DistType.baseline DragParam.min 40,
      EditOp.drag DistType.treatment DragParam.max 5],
      ∃ ty p v, op = EditOp.drag ty p v := by
    intro op hop
    simp only [List.mem_cons, List.not_mem_nil, or_false] at hop
    rcases hop with rfl | rfl
    · exact ⟨_, _, _, rfl⟩
    · exact ⟨_, _, _, rfl⟩
  exact ⟨hall, scenarioInvariant_after_dragEdits _ hall⟩

/-- C4 counterexample: with the realized baseline edited down to
`max = 10`, the input-panel edit of `treatment.max` to `25` stores `25`
(clamped only against the default baseline `max = 30`), exceeding the
current realized baseline value `10`. -/
theorem inputsEdit_treatment_exceeds_baseline :
    (userScenarioToScenario (runEdits
      [EditOp.inputs DistType.baseline DistField.max 10,
       EditOp.inputs DistType.treatment DistField.max 25])).baseline.max = 10 ∧
    (userScenarioToScenario (runEdits
      [EditOp.inputs DistType.baseline DistField.max 10,
       EditOp.inputs DistType.treatment DistField.max 25])).treatment.max = 25 ∧
    ¬ ((userScenarioToScenario (runEdits
        [EditOp.inputs DistType.baseline DistField.max 10,
         EditOp.inputs DistType.treatment DistField.max 25])).treatment.max ≤
      (userScenarioToScenario (runEdits
        [EditOp.inputs DistType.baseline DistField.max 10,
         EditOp.inputs DistType.treatment DistField.max 25])).baseline.max) := by
  norm_num [runEdits, applyEditOp, inputsEdit, getEmptyUserScenario,
    handleValueChange, jsRound, getMaxConstraint, DEFAULT_BASELINE,
    DEFAULT_TREATMENT, distributionToUserDistribution,
    userScenarioToScenario, userDistributionToDistribution]

/-- C4 (amended): a chart-drag edit of a treatment field clamps the
stored result of that field to not exceed the current realized baseline
value for the same field (given the standing invariant facts
`treatment.min ≤ baseline.min ≤ baseline.mode`); the input-panel path
instead clamps against the default baseline, see the counterexample. -/
theorem dragEdit_treatment_le_baseline (s : UserScenarioDistribution)
    (p : DragParam) (v : ℚ)
    (h1 : (userScenarioToScenario s).treatment.min ≤
      (userScenarioToScenario s).baseline.min)
    (h2 : (userScenarioToScenario s).baseline.min ≤
      (userScenarioToScenario s).baseline.mode) :
    dragParamField
        (userScenarioToScenario (dragEdit s DistType.treatment p v)).treatment
        p ≤
      dragParamField (userScenarioToScenario s).baseline p := by
  rw [userScenarioToScenario_dragEdit]
  cases p <;>
    (dsimp only [chartNext, handleDrag, dragParamField]
     simp only [inf_eq_min, sup_eq_max, min_def, max_def]
     split_ifs <;> linarith)

/-- Witness for the amended C4: dragging `treatment.mode` to `50` from
the all-unset state stores `10 ≤ 15`, the realized default baseline
mode. -/
theorem dragEdit_treatment_le_baseline_witness :
    ((userScenarioToScenario getEmptyUserScenario).treatment.min ≤
      (userScenarioToScenario getEmptyUserScenario).baseline.min ∧
      (userScenarioToScenario getEmptyUserScenario).baseline.min ≤
        (userScenarioToScenario getEmptyUserScenario).baseline.mode) ∧
      dragParamField
          (userScenarioToScenario
            (dragEdit getEmptyUserScenario DistType.treatment DragParam.mode
              50)).treatment DragParam.mode ≤
        dragParamField
          (userScenarioToScenario getEmptyUserScenario).baseline
          DragParam.mode := by
  have h1 : (userScenarioToScenario getEmptyUserScenario).treatment.min ≤
      (userScenarioToScenario getEmptyUserScenario).baseline.min := by
    norm_num [getEmptyUserScenario, userScenarioToScenario,
      userDistributionToDistribution, DEFAULT_BASELINE, DEFAULT_TREATMENT]
  have h2 : (userScenarioToScenario getEmptyUserScenario).baseline.min ≤
      (userScenarioToScenario getEmptyUserScenario).baseline.mode := by
    norm_num [getEmptyUserScenario, userScenarioToScenario,
      userDistributionToDistribution, DEFAULT_BASELINE, DEFAULT_TREATMENT]
  exact ⟨⟨h1, h2⟩,
    dragEdit_treatment_le_baseline getEmptyUserScenario DragParam.mode 50 h1 h2⟩

/-- C2: encoding the session with the single scenario
`{id: "s1", group: "A", attributes: {loc: "north"}}` whose sparse
distribution has only `baseline.min = 5` set, then decoding the produced
text, yields a sparse distribution for `"s1"` with `baseline.min = 5`
and all seven other fields unset (`none`) — not zero and not the
default. -/
theorem encode_then_decode_sparse_roundtrip :
    ((generateCSV
        [{ id := "s1", scenario_group := "A", comment := none,
           attributes := [("loc", CellValue.str "north")] }]
        [("s1",
          { baseline :=
              { min := some 5, max := none, mode := none, confidence := none }
            treatment :=
              { min := none, max := none, mode := none, confidence := none } })]).bind
      fun text => (parseCSV text []).map
        fun r => r.userElicitationData.lookup "s1") =
    Except.ok (some
      { baseline :=
          { min := some 5, max := none, mode := none, confidence := none }
        treatment :=
          { min := none, max := none, mode := none, confidence := none } }) := by
  decide

/-- C9: session encoding fails with the structural error exactly when
the scenario list is empty; on every non-empty list it returns, without
error, a text of one header row plus one row per scenario (joined with
newlines). -/
theorem generateCSV_fails_iff_empty (scenarios : List Scenario)
    (userData : UserElicitationData) :
    (scenarios = [] → generateCSV scenarios userData =
      Except.error "Cannot generate CSV: no scenarios provided") ∧
    (scenarios ≠ [] → ∃ ls, generateCSV scenarios userData =
      Except.ok (String.intercalate "\n" ls) ∧
        ls.length = scenarios.length + 1) := by
  constructor
  · rintro rfl
    rfl
  · intro h
    have hne : scenarios.isEmpty = false := by
      cases scenarios with
      | nil => exact absurd rfl h
      | cons a l => rfl
    simp only [generateCSV, hne, Bool.false_eq_true, if_false]
    exact ⟨_, rfl, by simp⟩

/-- Witness for C9: the empty list errors; a one-scenario list encodes
to two lines. -/
theorem generateCSV_fails_iff_empty_witness :
    generateCSV [] [] =
      Except.error "Cannot generate CSV: no scenarios provided" ∧
    ∃ ls, generateCSV
        [{ id := "s1", scenario_group := "A", comment := none,
           attributes := [] }] [] =
      Except.ok (String.intercalate "\n" ls) ∧ ls.length = 2 := by
  constructor
  · exact (generateCSV_fails_iff_empty [] []).1 rfl
  · obtain ⟨ls, h1, h2⟩ :=
      (generateCSV_fails_iff_empty
        [{ id := "s1", scenario_group := "A", comment := none,
           attributes := [] }] []).2 (by simp)
    refine ⟨ls, h1, ?_⟩
    rw [h2]
    rfl

/-- C5: when a data row repeats a `scenario_id` already recorded in the
canonical-rows map, decoding that row fails if and only if some column
other than `scenario_group` differs from the canonical row, and on
failure the error is exactly the conflict message enumerating the
mismatched column names. -/
theorem parseLine_duplicate_conflict_iff
    (headers : List String) (idx : ℕ) (rawLine : String) (st : ParseState)
    (prev : List (String × String))
    (hne : jsTrim rawLine ≠ "")
    (hid : rowGet headers (lineValues rawLine) "scenario_id" ≠ "")
    (hprev : st.canonicalRows.lookup
      (rowGet headers (lineValues rawLine) "scenario_id") = some prev) :
    ((∃ e, parseLine headers idx rawLine st = Except.error e) ↔
      ∃ h ∈ comparableHeadersOf headers,
        (prev.lookup h).getD "" ≠
          (((comparableRowOf headers (lineValues rawLine)).lookup h).getD "")) ∧
    (mismatchedColumnsOf headers prev (lineValues rawLine) ≠ [] →
      parseLine headers idx rawLine st = Except.error
        (dupConflictMsg (rowGet headers (lineValues rawLine) "scenario_id")
          (mismatchedColumnsOf headers prev (lineValues rawLine)))) := by
  have hiff : mismatchedColumnsOf headers prev (lineValues rawLine) ≠ [] ↔
      ∃ h ∈ comparableHeadersOf headers,
        (prev.lookup h).getD "" ≠
          (((comparableRowOf headers (lineValues rawLine)).lookup h).getD "") := by
    rw [mismatchedColumnsOf, Ne, List.filter_eq_nil_iff]
    push_neg
    simp
  simp only [parseLine, if_neg hne, if_neg hid, hprev]
  by_cases hm : mismatchedColumnsOf headers prev (lineValues rawLine) = []
  · rw [hm]
    constructor
    · simp only [List.isEmpty_nil, if_true]
      constructor
      · rintro ⟨e, he⟩
        cases he
      · intro hex
        exact absurd (hiff.mpr hex) (by simp [hm])
    · intro hne2
      exact absurd rfl hne2
  · have hfalse :
        (mismatchedColumnsOf headers prev (lineValues rawLine)).isEmpty = false := by
      cases hmc : mismatchedColumnsOf headers prev (lineValues rawLine) with
      | nil => exact absurd hmc hm
      | cons a l => rfl
    simp only [hfalse, Bool.false_eq_true, if_false]
    constructor
    · constructor
      · intro _
        exact hiff.mp hm
      · intro _
        exact ⟨_, rfl⟩
    · intro _
      trivial

/-- Witness for C5: a second row for `"s1"` whose `loc` cell differs
from the canonical row fails with the conflict message naming exactly
`loc`. -/
theorem parseLine_duplicate_conflict_iff_witness :
    parseLine ["scenario_id", "scenario_group", "loc"] 2 "s1,B,south"
      ⟨[("s1", [("scenario_id", "s1"), ("loc", "north")])], [], []⟩ =
    Except.error "Duplicate scenario_id \"s1\" must match on all columns except scenario_group. Conflicts found in: loc" := by
  have h := (parseLine_duplicate_conflict_iff
      ["scenario_id", "scenario_group", "loc"] 2 "s1,B,south"
      ⟨[("s1", [("scenario_id", "s1"), ("loc", "north")])], [], []⟩
      [("scenario_id", "s1"), ("loc", "north")]
      (by decide) (by decide) (by decide)).2 (by decide)
  rw [h]
  decide

/-- C6 counterexample: decoding a text with two rows for `"s1"` that
differ only in `scenario_group` succeeds but yields TWO scenario
records (one per row, with groups `A` and `B`), not one, alongside a
single distributions entry. -/
theorem parseCSV_duplicate_group_two_records :
    (parseCSV "scenario_id,scenario_group,comment,baseline_min,baseline_max,baseline_mode,baseline_confidence,treatment_min,treatment_max,treatment_mode,treatment_confidence\ns1,A,,,,,,,,,\ns1,B,,,,,,,,," []).map
      (fun r => (r.scenarios.length,
        r.scenarios.map fun sc => sc.scenario_group,
        r.userElicitationData.length)) =
    Except.ok (2, ["A", "B"], 1) := by
  decide

/-- C6 (amended): a data row repeating a `scenario_id` with every
comparable (non-`scenario_group`) column equal to the canonical row is
accepted without error, and it appends its own scenario record (carrying
that row's group) to the output while overwriting the single
distributions entry for the id — one scenario record per row, not one
per id. -/
theorem parseLine_duplicate_same_appends
    (headers : List String) (idx : ℕ) (rawLine : String) (st : ParseState)
    (prev : List (String × String))
    (hne : jsTrim rawLine ≠ "")
    (hid : rowGet headers (lineValues rawLine) "scenario_id" ≠ "")
    (hprev : st.canonicalRows.lookup
      (rowGet headers (lineValues rawLine) "scenario_id") = some prev)
    (hmatch : mismatchedColumnsOf headers prev (lineValues rawLine) = []) :
    parseLine headers idx rawLine st = Except.ok
      { st with
        scenarios := st.scenarios ++
          [rowScenario headers (lineValues rawLine)
            (rowGet headers (lineValues rawLine) "scenario_id")]
        userData := assocSet st.userData
          (rowGet headers (lineValues rawLine) "scenario_id")
          (rowUserDistribution headers (lineValues rawLine)) } := by
  simp only [parseLine, if_neg hne, if_neg hid, hprev, hmatch,
    List.isEmpty_nil, if_true]

/-- Witness for the amended C6: a second `"s1"` row differing only in
the group appends a second scenario record. -/
theorem parseLine_duplicate_same_appends_witness :
    parseLine ["scenario_id", "scenario_group", "loc"] 2 "s1,B,north"
      ⟨[("s1", [("scenario_id", "s1"), ("loc", "north")])], [], []⟩ =
    Except.ok
      { canonicalRows := [("s1", [("scenario_id", "s1"), ("loc", "north")])]
        scenarios :=
          [rowScenario ["scenario_id", "scenario_group", "loc"]
            (lineValues "s1,B,north")
            (rowGet ["scenario_id", "scenario_group", "loc"]
              (lineValues "s1,B,north") "scenario_id")]
        userData :=
          assocSet []
            (rowGet ["scenario_id", "scenario_group", "loc"]
              (lineValues "s1,B,north") "scenario_id")
            (rowUserDistribution ["scenario_id", "scenario_group", "loc"]
              (lineValues "s1,B,north")) } :=
  parseLine_duplicate_same_appends
    ["scenario_id", "scenario_group", "loc"] 2 "s1,B,north"
    ⟨[("s1", [("scenario_id", "s1"), ("loc", "north")])], [], []⟩
    [("scenario_id", "s1"), ("loc", "north")]
    (by decide) (by decide) (by decide) (by decide)

/-- C10: a fully blank line is silently skipped (the state is returned
unchanged), while a non-blank data row whose `scenario_id` cell is empty
or missing makes decoding fail with an error identifying the 1-based
row number. -/
theorem parseLine_blank_or_missing_id
    (headers : List String) (idx : ℕ) (rawLine : String) (st : ParseState) :
    (jsTrim rawLine = "" → parseLine headers idx rawLine st = Except.ok st) ∧
    (jsTrim rawLine ≠ "" →
      rowGet headers (lineValues rawLine) "scenario_id" = "" →
      parseLine headers idx rawLine st = Except.error
        ("Row " ++ toString (idx + 1) ++
          " is missing a scenario_id value.")) := by
  constructor
  · intro h
    simp only [parseLine, if_pos h]
  · intro h1 h2
    simp only [parseLine, if_neg h1, h2]
    simp

/-- Witness for C10: a whitespace-only line is skipped; a row with an
empty `scenario_id` cell at 0-based index 1 fails naming row 2. -/
theorem parseLine_blank_or_missing_id_witness :
    parseLine ["scenario_id", "scenario_group", "loc"] 5 "   "
      ⟨[], [], []⟩ = Except.ok ⟨[], [], []⟩ ∧
    parseLine ["scenario_id", "scenario_group", "loc"] 1 ",A,north"
      ⟨[], [], []⟩ =
      Except.error "Row 2 is missing a scenario_id value." := by
  constructor
  · exact (parseLine_blank_or_missing_id
      ["scenario_id", "scenario_group", "loc"] 5 "   " ⟨[], [], []⟩).1
      (by decide)
  · have h := (parseLine_blank_or_missing_id
      ["scenario_id", "scenario_group", "loc"] 1 ",A,north" ⟨[], [], []⟩).2
      (by decide) (by decide)
    rw [h]
    decide

end Elicitation
